import Mathlib

/-!
# Verification of the Logo-Reload orchestration core

Shallow embedding of the asynchronous generation orchestration of the
Logo-Reload repository (`src/App.tsx`, `src/services/geminiService.ts`,
`src/constants.ts`).  Remote services (the Gemini image-restyle endpoint,
the Veo video endpoint, the artifact download and the host key-selection
capability) are modelled as explicit oracle parameters; awaited calls
become ordinary function applications, and emitted remote requests are
recorded in an explicit trace so that "never calls X" properties are
statable.
-/

/-- JavaScript truthiness of a `string | null | undefined` value:
`null`/`undefined` and the empty string are falsy. -/
def jsTruthy : Option String → Bool
  | none => false
  | some s => s ≠ ""

/-- JavaScript `a || d` for a `string | null | undefined` left operand:
returns `d` when `a` is falsy. -/
def jsOr (o : Option String) (d : String) : String :=
  match o with
  | none => d
  | some s => if s = "" then d else s

/-- `listContains l sub` decides whether `sub` occurs as a contiguous
sublist of `l`; this is the semantics of JavaScript
`String.prototype.includes` on the underlying character lists
(in particular the empty needle is always found). -/
def listContains (l sub : List Char) : Bool :=
  match l, sub with
  | _, [] => true
  | [], _ :: _ => false
  | c :: t, s :: ss => List.isPrefixOf (s :: ss) (c :: t) || listContains t (s :: ss)

/-- Model of JavaScript `s.includes(sub)`. -/
def strContains (s sub : String) : Bool :=
  listContains s.data sub.data

/-- Prefix test on the underlying character lists (the semantics of the
anchored `^...` regex matches and of `String.isPrefixOf`). -/
def strIsPrefixOf (p s : String) : Bool :=
  List.isPrefixOf p.data s.data

/-- Splitting a character list at every occurrence of `c`, accumulating the
current field in reverse; always yields at least one field. -/
def splitOnCharAux (c : Char) : List Char → List Char → List (List Char)
  | [], acc => [acc.reverse]
  | x :: xs, acc =>
      if x = c then acc.reverse :: splitOnCharAux c xs []
      else splitOnCharAux c xs (x :: acc)

/-- Model of JavaScript `s.split(c)` for a one-character separator:
`"".split(',') = [""]`, `"a,b,c".split(',') = ["a","b","c"]`. -/
def jsSplit (s : String) (c : Char) : List String :=
  (splitOnCharAux c s.data []).map String.mk

deriving instance DecidableEq for Except

/-- The empty needle is always found. -/
theorem listContains_nil (l : List Char) : listContains l [] = true := by
  cases l <;> rfl

/-- The needle is found at the front: `l ++ rest` contains `l`. -/
theorem listContains_self_append (l rest : List Char) :
    listContains (l ++ rest) l = true := by
  cases l with
  | nil => exact listContains_nil rest
  | cons c t =>
      show (List.isPrefixOf (c :: t) (c :: (t ++ rest)) || _) = true
      have h : List.isPrefixOf (c :: t) (c :: (t ++ rest)) = true := by
        rw [List.isPrefixOf_iff_prefix]
        exact ⟨rest, by simp⟩
      rw [h, Bool.true_or]

/-- Every list contains itself. -/
theorem listContains_self (l : List Char) : listContains l l = true := by
  have h := listContains_self_append l []
  simpa using h

/-- Containment is stable under prepending more text. -/
theorem listContains_append_left (pre l sub : List Char)
    (h : listContains l sub = true) :
    listContains (pre ++ l) sub = true := by
  induction pre with
  | nil => simpa using h
  | cons c t ih =>
      cases sub with
      | nil => exact listContains_nil _
      | cons s ss =>
          show (_ || listContains (t ++ l) (s :: ss)) = true
          rw [ih, Bool.or_true]

/-- A string contains any of its suffixes: `strContains (a ++ b) b`. -/
theorem strContains_append_right (a b : String) :
    strContains (a ++ b) b = true := by
  show listContains (a ++ b).data b.data = true
  have hd : (a ++ b).data = a.data ++ b.data := rfl
  rw [hd]
  exact listContains_append_left a.data b.data b.data (listContains_self b.data)

/-- A string contains an infix sitting between two fixed pieces. -/
theorem strContains_append_middle (a b c : String) :
    strContains (a ++ (b ++ c)) b = true := by
  show listContains (a ++ (b ++ c)).data b.data = true
  have hd : (a ++ (b ++ c)).data = a.data ++ (b.data ++ c.data) := rfl
  rw [hd]
  exact listContains_append_left a.data (b.data ++ c.data) b.data
    (listContains_self_append b.data c.data)

/-! ## Data model (src/types.ts, src/unnamed/part_000, src/App.tsx state) -/

/-- One per-style result card (`GeneratedImage` in the source).
`imageUrl` is `""` while pending, `"error"` on failure, and the generated
data URL on success. -/
structure GeneratedImage where
  style : String
  imageUrl : String
  originalFileName : String
deriving DecidableEq, Repr

/-- The `GeneratedVideo` record from the source. -/
structure GeneratedVideo where
  prompt : String
  videoUrl : String
  aspectRatio : String
  originalFileName : String
deriving DecidableEq, Repr

/-- The video error surfaced to the user: either a plain string, or one of
the two rich JSX messages carrying a "select your API key" button
(user-recoverable key errors). -/
inductive VideoErrorMsg where
  | plain (s : String)
  | keyRequiredPrompt
  | keyResetPrompt
deriving DecidableEq, Repr

/-- The React state of `App` (`src/App.tsx` lines 20-32), one field per
`useState` hook. -/
structure AppState where
  uploadedImage : Option String
  uploadedFileName : Option String
  generating : Bool
  generatedImages : List GeneratedImage
  error : Option String
  videoPrompt : String
  videoAspectRatio : String
  generatedVideo : Option GeneratedVideo
  generatingVideo : Bool
  videoError : Option VideoErrorMsg
  hasSelectedVeoApiKey : Bool
deriving DecidableEq, Repr

/-- The fixed style catalog (`STYLES` in src/constants.ts). -/
def STYLES : List String :=
  ["Cyberpunk", "Sci-fi", "Steampunk", "Neo-Retro", "Abstract",
   "Vaporwave", "Minimalist", "Pixel Art", "Grunge", "Art Deco"]

/-- Lifecycle state of a `GeneratedImage` card, read off `imageUrl` the way
the UI does: empty url = still pending placeholder, `"error"` = failed,
anything else = ready artifact. -/
inductive ResState where
  | Pending
  | Ready
  | Failed
deriving DecidableEq, Repr

/-- Classify a result card into the Pending / Ready / Failed lifecycle. -/
def resultState (g : GeneratedImage) : ResState :=
  if g.imageUrl = "" then .Pending
  else if g.imageUrl = "error" then .Failed
  else .Ready

/-! ## Batch Image Orchestrator (`generateVariations`, src/App.tsx 57-93) -/

/-- `setGeneratedImages(prev => prev.map(img => img.style === style ?
{...img, imageUrl: url} : img))` — update every card of the given style. -/
def updateStyle (imgs : List GeneratedImage) (style url : String) :
    List GeneratedImage :=
  imgs.map fun img => if img.style = style then { img with imageUrl := url } else img

/-- `setError(prev => `${prev ? prev + NEWLINE : ''}` + line)` — append a
line to the aggregate error log, separating with a newline only when the
previous log is truthy (non-null, non-empty). -/
def appendErrorLine (prev : Option String) (line : String) : String :=
  (match prev with
   | none => ""
   | some p => if p = "" then "" else p ++ "\n") ++ line

/-- One iteration of the `for (const style of STYLES)` loop body
(src/App.tsx 67-91): append a pending placeholder card for `style`, run the
restyle call, and either fill the card with the returned url or mark it
`"error"` and extend the aggregate error log.  `f style` is the outcome of
the awaited `generateStyledImage(uploadedImage, style)` call: `.ok url` if
it resolved, `.error m` if it threw an error with message `m`. -/
def processStyle (f : String → Except String String) (fileName : String)
    (st : AppState) (style : String) : AppState :=
  let imgs := st.generatedImages ++ [⟨style, "", fileName⟩]
  match f style with
  | .ok url => { st with generatedImages := updateStyle imgs style url }
  | .error msg =>
      { st with
        generatedImages := updateStyle imgs style "error",
        error := some (appendErrorLine st.error
          ("Failed to generate " ++ style ++ " style: " ++ msg)) }

/-- `generateVariations` (src/App.tsx 57-93) over an arbitrary style
catalog: reject when no image is uploaded, otherwise clear the previous
results, run every style through `processStyle` in catalog order, and
clear the `generating` flag at the end. -/
def generateVariationsWith (f : String → Except String String)
    (styles : List String) (st : AppState) : AppState :=
  if jsTruthy st.uploadedImage = false then
    { st with error := some "Please upload an image first." }
  else
    let fileName := jsOr st.uploadedFileName "logo.png"
    let st1 := { st with generating := true, error := none, generatedImages := [] }
    let st2 := styles.foldl (processStyle f fileName) st1
    { st2 with generating := false }

/-- The source entry point runs the fixed catalog `STYLES`. -/
def generateVariations (f : String → Except String String) (st : AppState) :
    AppState :=
  generateVariationsWith f STYLES st

/-! ## Key Gate and host environment (src/services/geminiService.ts 9-31) -/

/-- Host environment as seen by the code: whether `window.aistudio` (with
both methods) is available, what the host `hasSelectedApiKey()` check
currently returns, and the `process.env.API_KEY` value. -/
structure VideoEnv where
  aistudioAvailable : Bool
  hasSelectedApiKey : Bool
  apiKey : Option String
deriving DecidableEq, Repr

/-- The Key Gate capability check of the specification: host check when the
host capability is available, otherwise fall back to the presence of a
locally configured credential.  This is also exactly the mount-time
initialisation of the `hasSelectedVeoApiKey` flag (src/App.tsx 35-46). -/
def hasUsableCredential (env : VideoEnv) : Bool :=
  if env.aistudioAvailable then env.hasSelectedApiKey else jsTruthy env.apiKey

/-- `checkAndSelectVeoApiKey` (src/services/geminiService.ts 9-31): either
returns a usable client (modelled as `.ok ()`) or throws one of three
messages; in particular `VEO_API_KEY_REQUIRED` when the host reports no
selected key. -/
def checkAndSelectVeoApiKey (env : VideoEnv) : Except String Unit :=
  if env.aistudioAvailable = false then
    if jsTruthy env.apiKey = false then
      .error "API_KEY is not defined in environment variables. `window.aistudio` not available to select key."
    else .ok ()
  else if env.hasSelectedApiKey = false then
    .error "VEO_API_KEY_REQUIRED"
  else if jsTruthy env.apiKey = false then
    .error "API_KEY is not defined in environment variables after selection."
  else .ok ()

/-! ## Video Job Orchestrator (src/services/geminiService.ts 95-152) -/

/-- A remote video operation handle: its `done` flag and the optional
result locator `operation.response?.generatedVideos?.[0]?.video?.uri`. -/
structure Operation where
  done : Bool
  uri : Option String
deriving DecidableEq, Repr

/-- The request constructed for `ai.models.generateVideos` (model name,
video count and resolution are constants in the source and omitted). -/
structure VideoRequest where
  imageBytes : Option String
  mimeType : String
  prompt : String
  aspectRatio : String
deriving DecidableEq, Repr

/-- Outcome of the `fetch` of the final artifact: a blob on success, or an
HTTP error with status, status text and body text. -/
inductive FetchResult where
  | fetchOk (blob : String)
  | fetchErr (status : Nat) (statusText : String) (body : String)
deriving DecidableEq, Repr

/-- Remote calls made by the video orchestrator, in order. -/
inductive VTraceEv where
  | submitCall (req : VideoRequest)
  | pollCall (i : Nat)
  | fetchCall (url : String)
deriving DecidableEq, Repr

/-- Outcome of the polling loop: the loop finished with a done handle after
`pollCalls` successful polls (each preceded by a 10-second wait, so poll
`j` completes `times[j] = 10*(j+1)` seconds after the loop was entered); or
a poll call threw; or the supplied fuel ran out with the handle still
not-done (modelling the unbounded loop still running). -/
inductive PollOutcome where
  | finished (op : Operation) (pollCalls : Nat) (times : List Nat)
  | pollFailed (msg : String) (pollCalls : Nat)
  | outOfFuel (pollCalls : Nat)
deriving DecidableEq, Repr

/-- Elapsed seconds at which each of the first `n` polls fires: the loop
sleeps 10 seconds (`setTimeout(resolve, 10000)`) before every poll. -/
def pollTimes (n : Nat) : List Nat :=
  (List.range n).map fun j => 10 * (j + 1)

/-- The `while (!operation.done)` loop (src/services/geminiService.ts
123-126): wait 10 seconds, call `getVideosOperation` with the stored
handle, replace the stored handle with the response.  `polls i` is the
outcome of the `i`-th poll call (0-based); `i` counts polls already made;
`fuel` only bounds how far the unbounded loop is unrolled. -/
def pollLoopAux (polls : Nat → Except String Operation) (fuel i : Nat)
    (op : Operation) : PollOutcome :=
  if op.done then .finished op i (pollTimes i)
  else
    match fuel with
    | 0 => .outOfFuel i
    | fuel' + 1 =>
        match polls i with
        | .error m => .pollFailed m (i + 1)
        | .ok op' => pollLoopAux polls fuel' (i + 1) op'

/-- Entry to the polling loop with the handle returned by submit. -/
def pollLoop (polls : Nat → Except String Operation) (fuel : Nat)
    (op : Operation) : PollOutcome :=
  pollLoopAux polls fuel 0 op

/-- `URL.createObjectURL(blob)` modelled as an injective tag on the blob. -/
def createObjectURL (blob : String) : String := "blob:" ++ blob

/-- JavaScript template interpolation of `process.env.API_KEY` into the
download URL (`undefined` when the variable is absent). -/
def apiKeyStr (env : VideoEnv) : String :=
  match env.apiKey with
  | some k => k
  | none => "undefined"

/-- The catch-block classifier (src/services/geminiService.ts 141-151):
errors whose message includes the entity-not-found signature become the
key-reset sentinel, everything else is wrapped verbatim. -/
def classifyVideoErr (m : String) : String :=
  if strContains m "Requested entity was not found." then
    "VEO_API_KEY_RESET_REQUIRED"
  else "Failed to generate video: " ++ m

/-! ## Data-URL parsing shared by both generators
(src/services/geminiService.ts 47-49 and 103-105) -/

/-- Whether the input matches the header regex
`/^data:(image\/(png|jpeg|jpg));base64,/`. -/
def matchesDataUrlHeader (s : String) : Bool :=
  strIsPrefixOf "data:image/png;base64," s ||
  strIsPrefixOf "data:image/jpeg;base64," s ||
  strIsPrefixOf "data:image/jpg;base64," s

/-- The mime type used for the request: capture group 1 of the header
regex when it matches, `'image/png'` otherwise. -/
def detectMimeType (s : String) : String :=
  if strIsPrefixOf "data:image/png;base64," s then "image/png"
  else if strIsPrefixOf "data:image/jpeg;base64," s then "image/jpeg"
  else if strIsPrefixOf "data:image/jpg;base64," s then "image/jpg"
  else "image/png"

/-- `base64Image.split(',')[1]`: the second comma-separated field, absent
(`undefined`) when the input has no comma. -/
def extractPayload (s : String) : Option String :=
  (jsSplit s ',')[1]?

/-! ## Generation Client, image side (`generateStyledImage`,
src/services/geminiService.ts 39-85) -/

/-- The `inlineData` part extracted from a Gemini response
(`response.candidates?.[0]?.content?.parts?.[0]?.inlineData`). -/
structure InlinePart where
  mimeType : String
  data : String
deriving DecidableEq, Repr

/-- Remote request recorded by the image generator: the mime type and
payload it sent. -/
inductive ImgEv where
  | request (mimeType : String) (data : Option String)
deriving DecidableEq, Repr

/-- `generateStyledImage` (src/services/geminiService.ts 39-85).
`remote mimeType data` is the awaited `ai.models.generateContent` call:
`.ok (some part)` when it resolved with an extractable `inlineData` part,
`.ok none` when it resolved without one, `.error m` when it threw with
message `m`.  Returns the function result together with the list of remote
requests issued. -/
def generateStyledImage (apiKey : Option String)
    (remote : String → Option String → Except String (Option InlinePart))
    (base64Image _stylePrompt : String) :
    Except String String × List ImgEv :=
  if jsTruthy apiKey = false then
    (.error "API_KEY is not defined in environment variables.", [])
  else
    let mimeType := detectMimeType base64Image
    let data := extractPayload base64Image
    match remote mimeType data with
    | .error m => (.error ("Failed to generate image: " ++ m), [.request mimeType data])
    | .ok none =>
        (.error "Failed to generate image: No image data found in the response.",
         [.request mimeType data])
    | .ok (some part) =>
        if part.mimeType = "" ∨ part.data = "" then
          (.error "Failed to generate image: No image data found in the response.",
           [.request mimeType data])
        else
          (.ok ("data:" ++ part.mimeType ++ ";base64," ++ part.data),
           [.request mimeType data])

/-- The request record built by `generateVideoFromImage` before submit. -/
def mkVideoRequest (base64Image prompt aspectRatio : String) : VideoRequest :=
  ⟨extractPayload base64Image, detectMimeType base64Image, prompt, aspectRatio⟩

/-- `generateVideoFromImage` (src/services/geminiService.ts 95-152):
key gate, submit, poll until done, extract the download link, fetch the
artifact, classify every error thrown inside the `try`.  Oracles:
`submit req` is the awaited `generateVideos` call, `polls i` the `i`-th
`getVideosOperation` call, `fetch url` the artifact download.  The first
component is `none` when the unbounded poll loop is still running after
`fuel` polls; the second is the trace of remote calls issued. -/
def generateVideoFromImage (env : VideoEnv)
    (submit : VideoRequest → Except String Operation)
    (polls : Nat → Except String Operation)
    (fetch : String → FetchResult)
    (fuel : Nat)
    (base64Image prompt aspectRatio : String) :
    Option (Except String String) × List VTraceEv :=
  match checkAndSelectVeoApiKey env with
  | .error e => (some (.error e), [])
  | .ok _ =>
    let req := mkVideoRequest base64Image prompt aspectRatio
    match submit req with
    | .error m => (some (.error (classifyVideoErr m)), [.submitCall req])
    | .ok op0 =>
      match pollLoop polls fuel op0 with
      | .outOfFuel n => (none, .submitCall req :: (List.range n).map .pollCall)
      | .pollFailed m n =>
          (some (.error (classifyVideoErr m)),
           .submitCall req :: (List.range n).map .pollCall)
      | .finished opF n _times =>
          let prior := .submitCall req :: (List.range n).map VTraceEv.pollCall
          if jsTruthy opF.uri = false then
            (some (.error (classifyVideoErr "No video download link found in the response.")),
             prior)
          else
            let url := (match opF.uri with | some u => u | none => "") ++ "&key=" ++
              apiKeyStr env
            match fetch url with
            | .fetchErr status statusText body =>
                (some (.error (classifyVideoErr
                  ("Failed to fetch video from download link: " ++ toString status ++ " " ++
                   statusText ++ " - " ++ body))),
                 prior ++ [.fetchCall url])
            | .fetchOk blob =>
                (some (.ok (createObjectURL blob)), prior ++ [.fetchCall url])

/-! ## Presentation-layer handlers (src/App.tsx) -/

/-- `handleImageUpload` (src/App.tsx 48-55): store the new image and file
name, clear prior image results, prior video, and both error fields. -/
def handleImageUpload (st : AppState) (base64 fileName : String) : AppState :=
  { st with
    uploadedImage := some base64,
    uploadedFileName := some fileName,
    generatedImages := [],
    generatedVideo := none,
    error := none,
    videoError := none }

/-- `handleSelectVeoApiKey` (src/App.tsx 95-110).  `openOk` is whether the
awaited `window.aistudio.openSelectKey()` resolved (`true`) or rejected.
On resolution the flag is set to `true` ("Assume success after opening
dialog") without re-checking the host. -/
def handleSelectVeoApiKey (env : VideoEnv) (openOk : Bool) (st : AppState) :
    AppState :=
  if env.aistudioAvailable then
    if openOk then
      { st with hasSelectedVeoApiKey := true, videoError := none }
    else
      { st with
        videoError := some (.plain "Failed to open API key selection. Please try again."),
        hasSelectedVeoApiKey := false }
  else
    { st with
      videoError := some (.plain
        "API key selection is not available in this environment. Ensure API_KEY is set manually."),
      hasSelectedVeoApiKey := jsTruthy env.apiKey }

/-- JavaScript `String(err)` for an `Error` with message `m`. -/
def jsStringOfError (m : String) : String :=
  if m = "" then "Error" else "Error: " ++ m

/-- `handleGenerateVideo` (src/App.tsx 112-199): validate the image and the
cached key flag, run `generateVideoFromImage`, store the resulting video or
classify the error message into the two key sentinels or a plain failure
message; `generatingVideo` is cleared in the `finally` block.  The first
component is `none` while the awaited call never resolves (unbounded
polling); the second is the trace of remote calls. -/
def handleGenerateVideo (env : VideoEnv)
    (submit : VideoRequest → Except String Operation)
    (polls : Nat → Except String Operation)
    (fetch : String → FetchResult)
    (fuel : Nat)
    (st : AppState) : Option AppState × List VTraceEv :=
  if jsTruthy st.uploadedImage = false then
    (some { st with videoError := some (.plain "Please upload an image first to generate a video.") }, [])
  else if st.hasSelectedVeoApiKey = false then
    (some { st with videoError := some (.plain "Please select your Veo API key before generating video.") }, [])
  else
    let st1 := { st with generatingVideo := true, videoError := none, generatedVideo := none }
    match generateVideoFromImage env submit polls fetch fuel
      (jsOr st.uploadedImage "") st.videoPrompt st.videoAspectRatio with
    | (none, tr) => (none, tr)
    | (some (.ok blobUrl), tr) =>
        (some { st1 with
          generatedVideo := some ⟨st.videoPrompt, blobUrl, st.videoAspectRatio,
            jsOr st.uploadedFileName "video_from_logo.mp4"⟩,
          generatingVideo := false }, tr)
    | (some (.error m), tr) =>
        if m = "VEO_API_KEY_REQUIRED" then
          (some { st1 with
            videoError := some .keyRequiredPrompt,
            hasSelectedVeoApiKey := false,
            generatingVideo := false }, tr)
        else if m = "VEO_API_KEY_RESET_REQUIRED" then
          (some { st1 with
            videoError := some .keyResetPrompt,
            hasSelectedVeoApiKey := false,
            generatingVideo := false }, tr)
        else
          (some { st1 with
            videoError := some (.plain ("Failed to generate video: " ++
              (if m = "" then jsStringOfError m else m))),
            generatingVideo := false }, tr)

/-- Written from the words of the claim under test, for comparison with
`extractPayload`: "the substring after the first comma" of the input,
absent when there is no comma. -/
def payloadAfterFirstComma (s : String) : Option String :=
  match jsSplit s ',' with
  | [] => none
  | [_] => none
  | _ :: rest => some (String.intercalate "," rest)

/-! ## Shared helper lemmas -/

/-- A wrapped failure message is never the bare key-required sentinel. -/
theorem failedVideoMsg_ne_required (m : String) :
    "Failed to generate video: " ++ m ≠ "VEO_API_KEY_REQUIRED" := by
  intro h
  have h2 : ("Failed to generate video: " ++ m).data.head?
      = ("VEO_API_KEY_REQUIRED" : String).data.head? :=
    congrArg (fun s => s.data.head?) h
  have h3 : ("Failed to generate video: " ++ m).data.head? = some 'F' := rfl
  have h4 : ("VEO_API_KEY_REQUIRED" : String).data.head? = some 'V' := rfl
  rw [h3, h4] at h2
  exact absurd h2 (by decide)

/-- A wrapped failure message is never the bare key-reset sentinel. -/
theorem failedVideoMsg_ne_reset (m : String) :
    "Failed to generate video: " ++ m ≠ "VEO_API_KEY_RESET_REQUIRED" := by
  intro h
  have h2 : ("Failed to generate video: " ++ m).data.head?
      = ("VEO_API_KEY_RESET_REQUIRED" : String).data.head? :=
    congrArg (fun s => s.data.head?) h
  have h3 : ("Failed to generate video: " ++ m).data.head? = some 'F' := rfl
  have h4 : ("VEO_API_KEY_RESET_REQUIRED" : String).data.head? = some 'V' := rfl
  rw [h3, h4] at h2
  exact absurd h2 (by decide)

/-- A wrapped failure message is never empty. -/
theorem failedVideoMsg_ne_empty (m : String) :
    "Failed to generate video: " ++ m ≠ "" := by
  intro h
  have h2 : ("Failed to generate video: " ++ m).data.head?
      = ("" : String).data.head? :=
    congrArg (fun s => s.data.head?) h
  have h3 : ("Failed to generate video: " ++ m).data.head? = some 'F' := rfl
  rw [h3] at h2
  exact absurd h2 (by decide)

/-- `updateStyle` never changes which styles appear, nor their order. -/
theorem updateStyle_map_style (l : List GeneratedImage) (s u : String) :
    (updateStyle l s u).map (fun g => g.style) = l.map (fun g => g.style) := by
  induction l with
  | nil => rfl
  | cons a t ih =>
      by_cases h : a.style = s <;> simp [updateStyle, h] <;>
        simpa [updateStyle] using ih

/-- Members of `updateStyle l s u` come from members of `l`, updated when
their style matches. -/
theorem mem_updateStyle {g : GeneratedImage} {l : List GeneratedImage}
    {s u : String} (hg : g ∈ updateStyle l s u) :
    ∃ a ∈ l, g = if a.style = s then { a with imageUrl := u } else a := by
  simp only [updateStyle, List.mem_map] at hg
  obtain ⟨a, ha, he⟩ := hg
  exact ⟨a, ha, he.symm⟩

/-- Folding the per-style loop body appends exactly the processed styles,
in order, to the published result sequence. -/
theorem foldl_processStyle_styles (f : String → Except String String)
    (fn : String) (styles : List String) : ∀ st : AppState,
    ((styles.foldl (processStyle f fn) st).generatedImages).map (fun g => g.style)
      = st.generatedImages.map (fun g => g.style) ++ styles := by
  induction styles with
  | nil => intro st; simp
  | cons s t ih =>
      intro st
      rw [List.foldl_cons, ih]
      cases hf : f s <;>
        simp [processStyle, hf, updateStyle_map_style]

/-- If successful restyle calls never return the empty url, every card in
the folded state keeps a non-empty url (terminal once its style ran). -/
theorem foldl_processStyle_terminal (f : String → Except String String)
    (fn : String) (hf : ∀ s u, f s = .ok u → u ≠ "")
    (styles : List String) : ∀ st : AppState,
    (∀ g ∈ st.generatedImages, g.imageUrl ≠ "") →
    ∀ g ∈ (styles.foldl (processStyle f fn) st).generatedImages, g.imageUrl ≠ "" := by
  induction styles with
  | nil => intro st h; simpa using h
  | cons s t ih =>
      intro st h
      rw [List.foldl_cons]
      apply ih
      intro g hg
      cases hfs : f s with
      | ok u =>
          simp only [processStyle, hfs] at hg
          obtain ⟨a, ha, he⟩ := mem_updateStyle hg
          rw [List.mem_append] at ha
          by_cases has : a.style = s
          · rw [he, if_pos has]
            exact hf s u hfs
          · rw [he, if_neg has]
            rcases ha with ha | ha
            · exact h a ha
            · simp at ha
              rw [ha] at has
              simp at has
      | error m =>
          simp only [processStyle, hfs] at hg
          obtain ⟨a, ha, he⟩ := mem_updateStyle hg
          rw [List.mem_append] at ha
          by_cases has : a.style = s
          · rw [he, if_pos has]
            simp
          · rw [he, if_neg has]
            rcases ha with ha | ha
            · exact h a ha
            · simp at ha
              rw [ha] at has
              simp at has

/-- If `f style` succeeds with `url`, then through the whole fold every
card of that style carries exactly `url`. -/
theorem foldl_processStyle_success (f : String → Except String String)
    (fn style url : String) (hok : f style = .ok url)
    (styles : List String) : ∀ st : AppState,
    (∀ g ∈ st.generatedImages, g.style = style → g.imageUrl = url) →
    ∀ g ∈ (styles.foldl (processStyle f fn) st).generatedImages,
      g.style = style → g.imageUrl = url := by
  induction styles with
  | nil => intro st h; simpa using h
  | cons s t ih =>
      intro st h
      rw [List.foldl_cons]
      apply ih
      intro g hg hgs
      cases hfs : f s with
      | ok u =>
          simp only [processStyle, hfs] at hg
          obtain ⟨a, ha, he⟩ := mem_updateStyle hg
          rw [List.mem_append] at ha
          by_cases has : a.style = s
          · have hga : g = { a with imageUrl := u } := by rw [he, if_pos has]
            have hgstyle : g.style = a.style := by rw [hga]
            have hss : s = style := by rw [← has, ← hgstyle]; exact hgs
            rw [hss, hok] at hfs
            injection hfs with huu
            rw [hga]
            exact huu.symm
          · have hga : g = a := by rw [he, if_neg has]
            rcases ha with ha | ha
            · have hastyle : a.style = style := by rw [← hga]; exact hgs
              rw [hga]
              exact h a ha hastyle
            · simp at ha
              rw [ha] at has
              simp at has
      | error m =>
          simp only [processStyle, hfs] at hg
          obtain ⟨a, ha, he⟩ := mem_updateStyle hg
          rw [List.mem_append] at ha
          by_cases has : a.style = s
          · have hga : g = { a with imageUrl := "error" } := by rw [he, if_pos has]
            have hgstyle : g.style = a.style := by rw [hga]
            have hss : s = style := by rw [← has, ← hgstyle]; exact hgs
            rw [hss, hok] at hfs
            cases hfs
          · have hga : g = a := by rw [he, if_neg has]
            rcases ha with ha | ha
            · have hastyle : a.style = style := by rw [← hga]; exact hgs
              rw [hga]
              exact h a ha hastyle
            · simp at ha
              rw [ha] at has
              simp at has

/-- A fixed sample of the App state, with an uploaded image. -/
def sampleState : AppState :=
  { uploadedImage := some "data:image/png;base64,AAA",
    uploadedFileName := some "logo.png",
    generating := false,
    generatedImages := [],
    error := none,
    videoPrompt := "a prompt",
    videoAspectRatio := "16:9",
    generatedVideo := none,
    generatingVideo := false,
    videoError := none,
    hasSelectedVeoApiKey := true }

/-- Unrolling the poll loop when the stored handle is done. -/
theorem pollLoopAux_done (polls : Nat → Except String Operation)
    (fuel i : Nat) (op : Operation) (h : op.done = true) :
    pollLoopAux polls fuel i op = .finished op i (pollTimes i) := by
  unfold pollLoopAux
  rw [h]
  simp

/-- Unrolling one successful poll: the stored handle is replaced by the
poll response and the loop continues. -/
theorem pollLoopAux_step (polls : Nat → Except String Operation)
    (fuel i : Nat) (op op' : Operation) (h : op.done = false)
    (hp : polls i = .ok op') :
    pollLoopAux polls (fuel + 1) i op = pollLoopAux polls fuel (i + 1) op' := by
  conv_lhs => rw [pollLoopAux]
  rw [h, hp]
  simp

/-- Unrolling one failing poll. -/
theorem pollLoopAux_fail (polls : Nat → Except String Operation)
    (fuel i : Nat) (op : Operation) (m : String) (h : op.done = false)
    (hp : polls i = .error m) :
    pollLoopAux polls (fuel + 1) i op = .pollFailed m (i + 1) := by
  conv_lhs => rw [pollLoopAux]
  rw [h, hp]
  simp

/-! ## Claim theorems -/

/-- **C9.** Uploading an image stores the new image and file name, clears
all prior generated image results, the prior generated video, and both the
image-batch and video error fields, and leaves the video prompt, the
aspect ratio, and the credential-selected flag unchanged. -/
theorem handleImageUpload_frame (st : AppState) (b f : String) :
    (handleImageUpload st b f).uploadedImage = some b ∧
    (handleImageUpload st b f).uploadedFileName = some f ∧
    (handleImageUpload st b f).generatedImages = [] ∧
    (handleImageUpload st b f).generatedVideo = none ∧
    (handleImageUpload st b f).error = none ∧
    (handleImageUpload st b f).videoError = none ∧
    (handleImageUpload st b f).videoPrompt = st.videoPrompt ∧
    (handleImageUpload st b f).videoAspectRatio = st.videoAspectRatio ∧
    (handleImageUpload st b f).hasSelectedVeoApiKey = st.hasSelectedVeoApiKey :=
  ⟨rfl, rfl, rfl, rfl, rfl, rfl, rfl, rfl, rfl⟩

/-- **C8, counterexample.** When the host dialog resolves but the host
still reports no selected key, `handleSelectVeoApiKey` stores `true`: the
stored flag is not the result of re-evaluating `hasUsableCredential()`. -/
theorem handleSelectVeoApiKey_not_reevaluated :
    (handleSelectVeoApiKey ⟨true, false, none⟩ true sampleState).hasSelectedVeoApiKey
      ≠ hasUsableCredential ⟨true, false, none⟩ := by
  decide

/-- **C8, amended.** After the interactive selection flow completes
successfully the stored flag is set to `true` optimistically (and the video
error cleared) regardless of what a fresh `hasUsableCredential()` check
would return; when opening the flow fails the flag is set to `false`; when
the flow is unavailable the flag is set from the presence of a local
environment credential. -/
theorem handleSelectVeoApiKey_optimistic (env : VideoEnv) (openOk : Bool)
    (st : AppState) :
    (env.aistudioAvailable = true → openOk = true →
       (handleSelectVeoApiKey env openOk st).hasSelectedVeoApiKey = true ∧
       (handleSelectVeoApiKey env openOk st).videoError = none) ∧
    (env.aistudioAvailable = true → openOk = false →
       (handleSelectVeoApiKey env openOk st).hasSelectedVeoApiKey = false) ∧
    (env.aistudioAvailable = false →
       (handleSelectVeoApiKey env openOk st).hasSelectedVeoApiKey
         = jsTruthy env.apiKey) := by
  refine ⟨fun h1 h2 => ?_, fun h1 h2 => ?_, fun h1 => ?_⟩
  · simp [handleSelectVeoApiKey, h1, h2]
  · simp [handleSelectVeoApiKey, h1, h2]
  · simp [handleSelectVeoApiKey, h1]

/-- **C8, witness.** The amended behaviour at a concrete input: the dialog
resolves while the host check is `false`, and the flag is stored `true`. -/
theorem handleSelectVeoApiKey_optimistic_witness :
    (handleSelectVeoApiKey ⟨true, false, none⟩ true sampleState).hasSelectedVeoApiKey = true ∧
    (handleSelectVeoApiKey ⟨true, false, none⟩ true sampleState).videoError = none :=
  (handleSelectVeoApiKey_optimistic ⟨true, false, none⟩ true sampleState).1 rfl rfl

/-- **C10, counterexample.** For the input `"x,ab,cd"` (whose prefix does
not match the data-URL header) the code's payload is the second
comma-separated field `"ab"`, not the substring after the first comma
`"ab,cd"` as claimed. -/
theorem extractPayload_not_after_first_comma :
    matchesDataUrlHeader "x,ab,cd" = false ∧
    extractPayload "x,ab,cd" = some "ab" ∧
    payloadAfterFirstComma "x,ab,cd" = some "ab,cd" ∧
    extractPayload "x,ab,cd" ≠ payloadAfterFirstComma "x,ab,cd" := by
  decide

/-- **C10, amended.** For every input whose prefix does not match the
data-URL header, neither generator rejects the input: the detected mime
type defaults to `image/png`, and the payload sent to the remote service
is `split(',')[1]` — the second comma-separated field (absent when the
input has no comma) — both in the restyle request and in the video submit
request. -/
theorem dataUrl_fallback_behaviour (s prompt aspectRatio style : String)
    (apiKey : Option String)
    (remote : String → Option String → Except String (Option InlinePart))
    (env : VideoEnv) (submit : VideoRequest → Except String Operation)
    (polls : Nat → Except String Operation) (fetch : String → FetchResult)
    (fuel : Nat)
    (hs : matchesDataUrlHeader s = false) :
    detectMimeType s = "image/png" ∧
    (jsTruthy apiKey = true →
       (generateStyledImage apiKey remote s style).2
         = [.request "image/png" (extractPayload s)]) ∧
    (checkAndSelectVeoApiKey env = .ok () →
       ((generateVideoFromImage env submit polls fetch fuel s prompt aspectRatio).2).head?
         = some (.submitCall ⟨extractPayload s, "image/png", prompt, aspectRatio⟩)) := by
  have hm : detectMimeType s = "image/png" := by
    simp only [matchesDataUrlHeader, Bool.or_eq_false_iff] at hs
    simp [detectMimeType, hs.1.1, hs.1.2, hs.2]
  refine ⟨hm, fun hk => ?_, fun henv => ?_⟩
  · simp only [generateStyledImage, hk, hm]
    cases hr : remote "image/png" (extractPayload s) with
    | error m => simp
    | ok v =>
        cases v with
        | none => simp
        | some part =>
            by_cases hp : part.mimeType = "" ∨ part.data = "" <;> simp [hp]
  · have hreq : mkVideoRequest s prompt aspectRatio
        = ⟨extractPayload s, "image/png", prompt, aspectRatio⟩ := by
      simp [mkVideoRequest, hm]
    simp only [generateVideoFromImage, henv, hreq]
    cases hsub : submit ⟨extractPayload s, "image/png", prompt, aspectRatio⟩ with
    | error m => simp [hsub]
    | ok op0 =>
        simp only [hsub]
        cases hpl : pollLoop polls fuel op0 with
        | outOfFuel n => simp [hpl]
        | pollFailed m n => simp [hpl]
        | finished opF n ts =>
            simp only [hpl]
            by_cases hu : jsTruthy opF.uri = false
            · simp [hu]
            · rw [Bool.not_eq_false] at hu
              simp only [hu]
              cases hf : fetch ((match opF.uri with | some u => u | none => "")
                  ++ "&key=" ++ apiKeyStr env) with
              | fetchErr a b c => simp [hf]
              | fetchOk blob => simp [hf]

/-- **C10, witness.** The amended behaviour at the counterexample input. -/
theorem dataUrl_fallback_behaviour_witness :
    detectMimeType "x,ab,cd" = "image/png" ∧
    (generateStyledImage (some "k")
        (fun _ _ => .ok (some ⟨"image/png", "OUT"⟩)) "x,ab,cd" "Cyberpunk").2
      = [.request "image/png" (extractPayload "x,ab,cd")] :=
  ⟨(dataUrl_fallback_behaviour "x,ab,cd" "p" "16:9" "Cyberpunk" (some "k")
      (fun _ _ => .ok (some ⟨"image/png", "OUT"⟩)) ⟨true, true, some "k"⟩
      (fun _ => .ok ⟨true, none⟩) (fun _ => .ok ⟨true, none⟩)
      (fun _ => .fetchOk "B") 0 rfl).1,
   (dataUrl_fallback_behaviour "x,ab,cd" "p" "16:9" "Cyberpunk" (some "k")
      (fun _ _ => .ok (some ⟨"image/png", "OUT"⟩)) ⟨true, true, some "k"⟩
      (fun _ => .ok ⟨true, none⟩) (fun _ => .ok ⟨true, none⟩)
      (fun _ => .fetchOk "B") 0 rfl).2.1 rfl⟩

/-- As long as every poll keeps answering not-done, the loop keeps going:
after any `fuel` unrolled iterations it is still running (no maximum
iteration count or timeout ever ends it). -/
theorem pollLoopAux_never_done (polls : Nat → Except String Operation) :
    ∀ (fuel i : Nat) (op : Operation), op.done = false →
    (∀ j, j < fuel → ∃ op', polls (i + j) = .ok op' ∧ op'.done = false) →
    pollLoopAux polls fuel i op = .outOfFuel (i + fuel) := by
  intro fuel
  induction fuel with
  | zero =>
      intro i op hd _
      unfold pollLoopAux
      rw [hd]
      simp
  | succ fuel ih =>
      intro i op hd hall
      obtain ⟨op', hp, hd'⟩ := hall 0 (Nat.succ_pos fuel)
      rw [Nat.add_zero] at hp
      rw [pollLoopAux_step polls fuel i op op' hd hp]
      have hshift : ∀ j, j < fuel → ∃ op'', polls (i + 1 + j) = .ok op'' ∧
          op''.done = false := by
        intro j hj
        have := hall (j + 1) (by omega)
        rwa [show i + (j + 1) = i + 1 + j by omega] at this
      rw [ih (i + 1) op' hd' hshift]
      congr 1
      omega

/-- **C2.** After a successful submit whose handle is not yet done, the
orchestrator repeatedly waits the fixed 10-second interval and polls,
replacing the stored handle with each poll response, and stops as soon as
a handle reports done: when the first two polls report not-done and the
third reports done, exactly 3 poll calls occur, at 10, 20 and 30 seconds
(each 10 seconds apart).  Moreover there is no maximum iteration count:
under any oracle that keeps reporting not-done, after any number of
unrolled iterations the loop is still running. -/
theorem pollLoop_three_polls (polls : Nat → Except String Operation)
    (o0 o1 o2 o3 : Operation) (fuel : Nat)
    (h0 : o0.done = false) (hp0 : polls 0 = .ok o1) (h1 : o1.done = false)
    (hp1 : polls 1 = .ok o2) (h2 : o2.done = false)
    (hp2 : polls 2 = .ok o3) (h3 : o3.done = true) (hfuel : 3 ≤ fuel) :
    pollLoop polls fuel o0 = .finished o3 3 [10, 20, 30] ∧
    (∀ (polls2 : Nat → Except String Operation) (g : Nat) (op : Operation),
       op.done = false →
       (∀ j, j < g → ∃ op', polls2 j = .ok op' ∧ op'.done = false) →
       pollLoop polls2 g op = .outOfFuel g) := by
  constructor
  · obtain ⟨k, hk⟩ := Nat.exists_eq_add_of_le hfuel
    subst hk
    show pollLoopAux polls (3 + k) 0 o0 = _
    have e1 : 3 + k = (2 + k) + 1 := by omega
    have e2 : 2 + k = (1 + k) + 1 := by omega
    have e3 : 1 + k = k + 1 := by omega
    rw [e1, pollLoopAux_step polls (2 + k) 0 o0 o1 h0 hp0,
        e2, pollLoopAux_step polls (1 + k) 1 o1 o2 h1 hp1,
        e3, pollLoopAux_step polls k 2 o2 o3 h2 hp2,
        pollLoopAux_done polls k 3 o3 h3]
    have ht : pollTimes 3 = [10, 20, 30] := by decide
    rw [ht]
  · intro polls2 g op hd hall
    have h := pollLoopAux_never_done polls2 g 0 op hd (by simpa using hall)
    rw [Nat.zero_add] at h
    exact h

/-- **C2, witness.** A concrete oracle whose third poll reports done:
3 polls at 10, 20, 30 seconds. -/
theorem pollLoop_three_polls_witness :
    pollLoop (fun i => .ok ⟨decide (i = 2), none⟩) 3 ⟨false, none⟩
      = .finished ⟨true, none⟩ 3 [10, 20, 30] :=
  (pollLoop_three_polls (fun i => .ok ⟨decide (i = 2), none⟩)
    ⟨false, none⟩ ⟨false, none⟩ ⟨false, none⟩ ⟨true, none⟩ 3
    rfl rfl rfl rfl rfl rfl rfl (by decide)).1

/-- **C3.** A video job requested while the Key Gate reports no usable
credential fails as key-required with a message prompting credential
selection, and no submit call is ever issued: (a) with a fresh session
flag (initialised from the same gate) the handler stops at the cached-flag
check; (b) in the hosted environment even a stale `true` flag is caught by
the live re-check inside `generateVideoFromImage`, which throws the
`VEO_API_KEY_REQUIRED` sentinel before submitting, and the handler then
surfaces the recoverable select-key prompt and resets the flag.  In every
case the emitted remote-call trace is empty. -/
theorem videoJob_keyGate (env : VideoEnv)
    (submit : VideoRequest → Except String Operation)
    (polls : Nat → Except String Operation) (fetch : String → FetchResult)
    (fuel : Nat) (st : AppState)
    (hcred : hasUsableCredential env = false)
    (himg : jsTruthy st.uploadedImage = true) :
    (st.hasSelectedVeoApiKey = false →
       handleGenerateVideo env submit polls fetch fuel st
         = (some { st with videoError := some (.plain
             "Please select your Veo API key before generating video.") }, [])) ∧
    (env.aistudioAvailable = true →
       (∀ img prompt aspectRatio,
          generateVideoFromImage env submit polls fetch fuel img prompt aspectRatio
            = (some (.error "VEO_API_KEY_REQUIRED"), [])) ∧
       (st.hasSelectedVeoApiKey = true →
          handleGenerateVideo env submit polls fetch fuel st
            = (some { st with
                generatedVideo := none,
                videoError := some .keyRequiredPrompt,
                hasSelectedVeoApiKey := false,
                generatingVideo := false }, []))) := by
  constructor
  · intro hflag
    simp [handleGenerateVideo, himg, hflag]
  · intro havail
    have hsel : env.hasSelectedApiKey = false := by
      rw [hasUsableCredential, havail] at hcred
      simpa using hcred
    have hsvc : ∀ img prompt aspectRatio,
        generateVideoFromImage env submit polls fetch fuel img prompt aspectRatio
          = (some (.error "VEO_API_KEY_REQUIRED"), []) := by
      intro img prompt aspectRatio
      simp [generateVideoFromImage, checkAndSelectVeoApiKey, havail, hsel]
    refine ⟨hsvc, fun hflag => ?_⟩
    simp [handleGenerateVideo, himg, hflag, hsvc]

/-- **C3, witness.** Concrete no-credential environment: the handler
reports the select-key message and issues no remote call. -/
theorem videoJob_keyGate_witness :
    handleGenerateVideo ⟨true, false, some "k"⟩ (fun _ => .ok ⟨true, none⟩)
        (fun _ => .ok ⟨true, none⟩) (fun _ => .fetchOk "B") 0
        { sampleState with hasSelectedVeoApiKey := false }
      = (some { sampleState with
          hasSelectedVeoApiKey := false,
          videoError := some (.plain
            "Please select your Veo API key before generating video.") }, []) :=
  (videoJob_keyGate ⟨true, false, some "k"⟩ (fun _ => .ok ⟨true, none⟩)
    (fun _ => .ok ⟨true, none⟩) (fun _ => .fetchOk "B") 0
    { sampleState with hasSelectedVeoApiKey := false } rfl rfl).1 rfl

/-- A string contains its last piece: `strContains (a ++ (b ++ c)) c`. -/
theorem strContains_tail (a b c : String) :
    strContains (a ++ (b ++ c)) c = true := by
  show listContains (a ++ (b ++ c)).data c.data = true
  have hd : (a ++ (b ++ c)).data = a.data ++ (b.data ++ c.data) := rfl
  rw [hd]
  exact listContains_append_left _ _ _
    (listContains_append_left _ _ _ (listContains_self _))

/-- **C4.** Classification of submit/poll failures: a failure message
carrying the entity-not-found signature makes the job fail as the
key-reset sentinel (surfaced as the reselect-credential prompt, with the
flag reset), and any other failure message makes the job fail as a plain
wrapped transport/service error that still carries the underlying
message. -/
theorem videoJob_error_classification (m : String) (env : VideoEnv)
    (submit : VideoRequest → Except String Operation)
    (polls : Nat → Except String Operation) (fetch : String → FetchResult)
    (fuel : Nat) (img prompt aspectRatio : String) (st : AppState) :
    (strContains m "Requested entity was not found." = true →
       classifyVideoErr m = "VEO_API_KEY_RESET_REQUIRED") ∧
    (strContains m "Requested entity was not found." = false →
       classifyVideoErr m = "Failed to generate video: " ++ m ∧
       strContains (classifyVideoErr m) m = true) ∧
    (checkAndSelectVeoApiKey env = .ok () →
     submit (mkVideoRequest img prompt aspectRatio) = .error m →
       generateVideoFromImage env submit polls fetch fuel img prompt aspectRatio
         = (some (.error (classifyVideoErr m)),
            [.submitCall (mkVideoRequest img prompt aspectRatio)])) ∧
    (∀ op0 n, checkAndSelectVeoApiKey env = .ok () →
     submit (mkVideoRequest img prompt aspectRatio) = .ok op0 →
     pollLoop polls fuel op0 = .pollFailed m n →
       generateVideoFromImage env submit polls fetch fuel img prompt aspectRatio
         = (some (.error (classifyVideoErr m)),
            .submitCall (mkVideoRequest img prompt aspectRatio)
              :: (List.range n).map .pollCall)) ∧
    (jsTruthy st.uploadedImage = true → st.hasSelectedVeoApiKey = true →
     checkAndSelectVeoApiKey env = .ok () →
     submit (mkVideoRequest (jsOr st.uploadedImage "") st.videoPrompt
       st.videoAspectRatio) = .error m →
       (strContains m "Requested entity was not found." = true →
          handleGenerateVideo env submit polls fetch fuel st
            = (some { st with
                generatedVideo := none,
                videoError := some .keyResetPrompt,
                hasSelectedVeoApiKey := false,
                generatingVideo := false },
               [.submitCall (mkVideoRequest (jsOr st.uploadedImage "")
                 st.videoPrompt st.videoAspectRatio)])) ∧
       (strContains m "Requested entity was not found." = false →
          handleGenerateVideo env submit polls fetch fuel st
            = (some { st with
                generatedVideo := none,
                videoError := some (.plain ("Failed to generate video: "
                  ++ ("Failed to generate video: " ++ m))),
                generatingVideo := false },
               [.submitCall (mkVideoRequest (jsOr st.uploadedImage "")
                 st.videoPrompt st.videoAspectRatio)]) ∧
          strContains ("Failed to generate video: "
            ++ ("Failed to generate video: " ++ m)) m = true)) := by
  have hsvc : ∀ i p a, checkAndSelectVeoApiKey env = .ok () →
      submit (mkVideoRequest i p a) = .error m →
      generateVideoFromImage env submit polls fetch fuel i p a
        = (some (.error (classifyVideoErr m)), [.submitCall (mkVideoRequest i p a)]) := by
    intro i p a henv hsub
    simp [generateVideoFromImage, henv, hsub]
  refine ⟨fun hsig => ?_, fun hsig => ?_, hsvc img prompt aspectRatio,
    fun op0 n henv hsub hpl => ?_, fun himg hflag henv hsub => ⟨fun hsig => ?_, fun hsig => ?_⟩⟩
  · simp [classifyVideoErr, hsig]
  · constructor
    · simp [classifyVideoErr, hsig]
    · rw [classifyVideoErr, hsig]
      simp only [Bool.false_eq_true, if_false]
      exact strContains_append_right "Failed to generate video: " m
  · simp [generateVideoFromImage, henv, hsub, pollLoop] at hpl ⊢
    rw [hpl]
  · have hc : classifyVideoErr m = "VEO_API_KEY_RESET_REQUIRED" := by
      simp [classifyVideoErr, hsig]
    have hrun := hsvc _ _ _ henv hsub
    rw [hc] at hrun
    simp [handleGenerateVideo, himg, hflag, hrun]
  · have hc : classifyVideoErr m = "Failed to generate video: " ++ m := by
      simp [classifyVideoErr, hsig]
    have hrun := hsvc _ _ _ henv hsub
    rw [hc] at hrun
    refine ⟨?_, strContains_tail "Failed to generate video: "
      "Failed to generate video: " m⟩
    simp [handleGenerateVideo, himg, hflag, hrun,
      failedVideoMsg_ne_required m, failedVideoMsg_ne_reset m,
      failedVideoMsg_ne_empty m]

/-- **C4, witness.** A concrete submit failure carrying the signature is
classified as the key-reset sentinel; one not carrying it is wrapped. -/
theorem videoJob_error_classification_witness :
    classifyVideoErr "Requested entity was not found." = "VEO_API_KEY_RESET_REQUIRED" ∧
    classifyVideoErr "rate limited" = "Failed to generate video: " ++ "rate limited" ∧
    generateVideoFromImage ⟨true, true, some "k"⟩ (fun _ => .error "rate limited")
        (fun _ => .ok ⟨true, none⟩) (fun _ => .fetchOk "B") 0 "img" "p" "16:9"
      = (some (.error (classifyVideoErr "rate limited")),
         [.submitCall (mkVideoRequest "img" "p" "16:9")]) :=
  ⟨(videoJob_error_classification "Requested entity was not found."
      ⟨true, true, some "k"⟩ (fun _ => .error "Requested entity was not found.")
      (fun _ => .ok ⟨true, none⟩) (fun _ => .fetchOk "B") 0 "img" "p" "16:9"
      sampleState).1 (by decide),
   ((videoJob_error_classification "rate limited"
      ⟨true, true, some "k"⟩ (fun _ => .error "rate limited")
      (fun _ => .ok ⟨true, none⟩) (fun _ => .fetchOk "B") 0 "img" "p" "16:9"
      sampleState).2.1 (by decide)).1,
   (videoJob_error_classification "rate limited"
      ⟨true, true, some "k"⟩ (fun _ => .error "rate limited")
      (fun _ => .ok ⟨true, none⟩) (fun _ => .fetchOk "B") 0 "img" "p" "16:9"
      sampleState).2.2.1 rfl rfl⟩

/-- **C7, counterexample.** A fetch failure whose body carries the
entity-not-found signature is re-classified by the catch block into the
bare key-reset sentinel: the job error does not include the HTTP-status
detail (here `404`), contradicting the claim that every unsuccessful
download fails with an error including HTTP-status detail. -/
theorem videoFetchFailure_can_lose_status :
    generateVideoFromImage ⟨true, true, some "k"⟩
        (fun _ => .ok ⟨true, some "http://x"⟩) (fun _ => .ok ⟨true, none⟩)
        (fun _ => .fetchErr 404 "Not Found" "Requested entity was not found.") 0
        "data:image/png;base64,AAA" "p" "16:9"
      = (some (.error "VEO_API_KEY_RESET_REQUIRED"),
         [.submitCall ⟨some "AAA", "image/png", "p", "16:9"⟩,
          .fetchCall "http://x&key=k"]) ∧
    strContains "VEO_API_KEY_RESET_REQUIRED" "404" = false := by
  decide

/-- **C7, amended.** When the operation completes: an absent (or empty)
result locator fails the job with the wrapped no-download-link error; a
failed download whose detail does not carry the entity-not-found signature
fails the job with an error that includes the HTTP-status detail (a
signature-carrying detail is instead re-classified as the key-reset
sentinel, as the counterexample shows); a successful download makes the
job ready with the blob URL of the fetched artifact. -/
theorem videoJob_done_handling (env : VideoEnv)
    (submit : VideoRequest → Except String Operation)
    (polls : Nat → Except String Operation) (fetch : String → FetchResult)
    (fuel : Nat) (img prompt aspectRatio : String)
    (op0 opF : Operation) (n : Nat) (ts : List Nat)
    (henv : checkAndSelectVeoApiKey env = .ok ())
    (hsub : submit (mkVideoRequest img prompt aspectRatio) = .ok op0)
    (hpl : pollLoop polls fuel op0 = .finished opF n ts) :
    (jsTruthy opF.uri = false →
       generateVideoFromImage env submit polls fetch fuel img prompt aspectRatio
         = (some (.error
             "Failed to generate video: No video download link found in the response."),
            .submitCall (mkVideoRequest img prompt aspectRatio)
              :: (List.range n).map .pollCall)) ∧
    (∀ u status statusText body, opF.uri = some u → u ≠ "" →
     fetch (u ++ "&key=" ++ apiKeyStr env) = .fetchErr status statusText body →
     strContains ("Failed to fetch video from download link: "
         ++ toString status ++ " " ++ statusText ++ " - " ++ body)
       "Requested entity was not found." = false →
       generateVideoFromImage env submit polls fetch fuel img prompt aspectRatio
         = (some (.error ("Failed to generate video: "
             ++ ("Failed to fetch video from download link: "
                 ++ toString status ++ " " ++ statusText ++ " - " ++ body))),
            .submitCall (mkVideoRequest img prompt aspectRatio)
              :: ((List.range n).map VTraceEv.pollCall
                  ++ [.fetchCall (u ++ "&key=" ++ apiKeyStr env)])) ∧
       strContains ("Failed to generate video: "
           ++ ("Failed to fetch video from download link: "
               ++ toString status ++ " " ++ statusText ++ " - " ++ body))
         (toString status) = true) ∧
    (∀ u blob, opF.uri = some u → u ≠ "" →
     fetch (u ++ "&key=" ++ apiKeyStr env) = .fetchOk blob →
       generateVideoFromImage env submit polls fetch fuel img prompt aspectRatio
         = (some (.ok (createObjectURL blob)),
            .submitCall (mkVideoRequest img prompt aspectRatio)
              :: ((List.range n).map VTraceEv.pollCall
                  ++ [.fetchCall (u ++ "&key=" ++ apiKeyStr env)]))) := by
  have hnl : classifyVideoErr "No video download link found in the response."
      = "Failed to generate video: No video download link found in the response." := by
    decide
  refine ⟨fun hu => ?_, fun u status statusText body huri hune hf hsig => ?_,
    fun u blob huri hune hf => ?_⟩
  · simp [generateVideoFromImage, henv, hsub, hpl, hu, hnl]
  · constructor
    · have hut : jsTruthy opF.uri = true := by rw [huri]; simp [jsTruthy, hune]
      have hc : classifyVideoErr ("Failed to fetch video from download link: "
          ++ toString status ++ " " ++ statusText ++ " - " ++ body)
          = "Failed to generate video: "
            ++ ("Failed to fetch video from download link: "
                ++ toString status ++ " " ++ statusText ++ " - " ++ body) := by
        simp [classifyVideoErr, hsig]
      simp [generateVideoFromImage, henv, hsub, hpl, hut, huri, hf, hc, jsTruthy, hune]
    · show listContains _ (toString status).data = true
      have hd : ("Failed to generate video: "
          ++ ("Failed to fetch video from download link: "
              ++ toString status ++ " " ++ statusText ++ " - " ++ body)).data
          = "Failed to generate video: ".data
            ++ ((((("Failed to fetch video from download link: ".data
                ++ (toString status).data) ++ " ".data) ++ statusText.data)
                ++ " - ".data) ++ body.data) := rfl
      rw [hd]
      simp only [List.append_assoc]
      apply listContains_append_left
      apply listContains_append_left
      exact listContains_self_append _ _
  · have hut : jsTruthy opF.uri = true := by rw [huri]; simp [jsTruthy, hune]
    simp [generateVideoFromImage, henv, hsub, hpl, hut, huri, hf, jsTruthy, hune]

/-- **C7, witness.** A concrete completed operation with a locator and a
successful download ends ready with the blob URL. -/
theorem videoJob_done_handling_witness :
    generateVideoFromImage ⟨true, true, some "k"⟩
        (fun _ => .ok ⟨true, some "http://x"⟩) (fun _ => .ok ⟨true, none⟩)
        (fun _ => .fetchOk "BLOB") 0 "data:image/png;base64,AAA" "p" "16:9"
      = (some (.ok (createObjectURL "BLOB")),
         [.submitCall ⟨some "AAA", "image/png", "p", "16:9"⟩,
          .fetchCall "http://x&key=k"]) :=
  (videoJob_done_handling ⟨true, true, some "k"⟩
      (fun _ => .ok ⟨true, some "http://x"⟩) (fun _ => .ok ⟨true, none⟩)
      (fun _ => .fetchOk "BLOB") 0 "data:image/png;base64,AAA" "p" "16:9"
      ⟨true, some "http://x"⟩ ⟨true, some "http://x"⟩ 0 []
      rfl rfl rfl).2.2 "http://x" "BLOB" rfl (by decide) rfl

/-- **C1.** For every style catalog and uploaded image (and any per-style
restyle outcomes whose successes are non-empty urls, as the real
`generateStyledImage` successes always are), the batch publishes exactly
one card per style, in catalog order, every card ends in a terminal state
(Ready or Failed), and the `generating` flag is false afterwards. -/
theorem generateVariations_batch_shape (f : String → Except String String)
    (styles : List String) (st : AppState)
    (himg : jsTruthy st.uploadedImage = true)
    (hf : ∀ s u, f s = .ok u → u ≠ "") :
    ((generateVariationsWith f styles st).generatedImages).map (fun g => g.style)
      = styles ∧
    (generateVariationsWith f styles st).generatedImages.length = styles.length ∧
    (∀ g ∈ (generateVariationsWith f styles st).generatedImages,
        resultState g = ResState.Ready ∨ resultState g = ResState.Failed) ∧
    (generateVariationsWith f styles st).generating = false := by
  have hrun : generateVariationsWith f styles st
      = { (styles.foldl (processStyle f (jsOr st.uploadedFileName "logo.png"))
            { st with generating := true, error := none, generatedImages := [] })
          with generating := false } := by
    simp [generateVariationsWith, himg]
  have hmap : ((generateVariationsWith f styles st).generatedImages).map
      (fun g => g.style) = styles := by
    rw [hrun]
    show ((styles.foldl (processStyle f (jsOr st.uploadedFileName "logo.png"))
      { st with generating := true, error := none, generatedImages := [] }
      ).generatedImages).map (fun g => g.style) = styles
    rw [foldl_processStyle_styles]
    simp
  refine ⟨hmap, ?_, fun g hg => ?_, by rw [hrun]⟩
  · rw [← List.length_map ((generateVariationsWith f styles st).generatedImages)
      (fun g => g.style), hmap]
  · have hne : g.imageUrl ≠ "" := by
      rw [hrun] at hg
      exact foldl_processStyle_terminal f (jsOr st.uploadedFileName "logo.png")
        hf styles { st with generating := true, error := none, generatedImages := [] }
        (by simp) g hg
    by_cases h2 : g.imageUrl = "error"
    · right; simp [resultState, hne, h2]
    · left; simp [resultState, hne, h2]

/-- **C1, witness.** A singleton catalog with a succeeding call. -/
theorem generateVariations_batch_shape_witness :
    ((generateVariationsWith (fun _ => .ok "data:OK") ["Cyberpunk"] sampleState
      ).generatedImages).map (fun g => g.style) = ["Cyberpunk"] ∧
    (generateVariationsWith (fun _ => .ok "data:OK") ["Cyberpunk"] sampleState
      ).generating = false :=
  ⟨(generateVariations_batch_shape (fun _ => .ok "data:OK") ["Cyberpunk"]
      sampleState rfl
      (by intro s u h; injection h with h2; rw [← h2]; decide)).1,
   (generateVariations_batch_shape (fun _ => .ok "data:OK") ["Cyberpunk"]
      sampleState rfl
      (by intro s u h; injection h with h2; rw [← h2]; decide)).2.2.2⟩

/-- **C5.** Failure isolation: whatever the outcomes of the other styles,
every style whose restyle call succeeds (with a url that is neither empty
nor the failure marker, as real successes are) has its card in the final
batch, and every card of that style is Ready with exactly that url —
including styles processed after a failed one. -/
theorem generateVariations_failure_isolation (f : String → Except String String)
    (styles : List String) (st : AppState) (style url : String)
    (himg : jsTruthy st.uploadedImage = true)
    (hok : f style = .ok url) (hu1 : url ≠ "") (hu2 : url ≠ "error")
    (hmem : style ∈ styles) :
    (∃ g ∈ (generateVariationsWith f styles st).generatedImages,
       g.style = style) ∧
    (∀ g ∈ (generateVariationsWith f styles st).generatedImages,
       g.style = style → g.imageUrl = url ∧ resultState g = ResState.Ready) := by
  have hrun : generateVariationsWith f styles st
      = { (styles.foldl (processStyle f (jsOr st.uploadedFileName "logo.png"))
            { st with generating := true, error := none, generatedImages := [] })
          with generating := false } := by
    simp [generateVariationsWith, himg]
  have hmap : ((generateVariationsWith f styles st).generatedImages).map
      (fun g => g.style) = styles := by
    rw [hrun]
    show ((styles.foldl (processStyle f (jsOr st.uploadedFileName "logo.png"))
      { st with generating := true, error := none, generatedImages := [] }
      ).generatedImages).map (fun g => g.style) = styles
    rw [foldl_processStyle_styles]
    simp
  constructor
  · have : style ∈ ((generateVariationsWith f styles st).generatedImages).map
        (fun g => g.style) := by rw [hmap]; exact hmem
    obtain ⟨g, hg, hgs⟩ := List.mem_map.mp this
    exact ⟨g, hg, hgs⟩
  · intro g hg hgs
    have hurl : g.imageUrl = url := by
      rw [hrun] at hg
      exact foldl_processStyle_success f (jsOr st.uploadedFileName "logo.png")
        style url hok styles
        { st with generating := true, error := none, generatedImages := [] }
        (by simp) g hg hgs
    exact ⟨hurl, by simp [resultState, hurl, hu1, hu2]⟩

/-- **C5, witness.** Cyberpunk fails, Vaporwave (processed after it) still
reaches Ready with its url. -/
theorem generateVariations_failure_isolation_witness :
    ((⟨"Vaporwave", "data:OK", "logo.png"⟩ : GeneratedImage).imageUrl = "data:OK") ∧
    resultState ⟨"Vaporwave", "data:OK", "logo.png"⟩ = ResState.Ready :=
  (generateVariations_failure_isolation
      (fun s => if s = "Vaporwave" then .ok "data:OK" else .error "boom")
      ["Cyberpunk", "Vaporwave"] sampleState "Vaporwave" "data:OK"
      rfl rfl (by decide) (by decide) (by decide)).2
    ⟨"Vaporwave", "data:OK", "logo.png"⟩ (by decide) rfl

/-- **C6.** A failing restyle call for a style marks every card of that
style failed and appends exactly the line
`Failed to generate <style> style: <message>` to the aggregate error log;
in particular for the catalog `["Cyberpunk", "Vaporwave"]` where the first
call succeeds and the second throws `rate limited`, the final error log is
exactly `Failed to generate Vaporwave style: rate limited`. -/
theorem generateVariations_error_log (f : String → Except String String)
    (st : AppState) (url : String) :
    (∀ (fn : String) (st' : AppState) (style m : String), f style = .error m →
       (processStyle f fn st' style).error
         = some (appendErrorLine st'.error
             ("Failed to generate " ++ style ++ " style: " ++ m)) ∧
       (∀ g ∈ (processStyle f fn st' style).generatedImages,
          g.style = style → g.imageUrl = "error")) ∧
    (jsTruthy st.uploadedImage = true →
     f "Cyberpunk" = .ok url →
     f "Vaporwave" = .error "rate limited" →
       (generateVariationsWith f ["Cyberpunk", "Vaporwave"] st).error
         = some "Failed to generate Vaporwave style: rate limited") := by
  constructor
  · intro fn st' style m hm
    constructor
    · simp [processStyle, hm]
    · intro g hg hgs
      simp only [processStyle, hm] at hg
      obtain ⟨a, ha, he⟩ := mem_updateStyle hg
      by_cases has : a.style = style
      · rw [he, if_pos has]
      · have hga : g = a := by rw [he, if_neg has]
        rw [hga] at hgs
        exact absurd hgs has
  · intro himg hC hV
    simp only [generateVariationsWith, himg, Bool.true_eq_false, if_neg,
      List.foldl_cons, List.foldl_nil]
    simp [processStyle, hC, hV, appendErrorLine]

/-- **C6, witness.** The concrete two-style scenario. -/
theorem generateVariations_error_log_witness :
    (generateVariationsWith
        (fun s => if s = "Cyberpunk" then .ok "data:OK" else .error "rate limited")
        ["Cyberpunk", "Vaporwave"] sampleState).error
      = some "Failed to generate Vaporwave style: rate limited" :=
  (generateVariations_error_log
      (fun s => if s = "Cyberpunk" then .ok "data:OK" else .error "rate limited")
      sampleState "data:OK").2 rfl rfl rfl
